import Mathlib

/-!
Shallow embedding of the overlay-navigation and cache-invalidation subsystem of
the photo-sharing application (Next.js_Advance repository), together with
theorems settling the frozen claims about it.

Embedded source files:
- the `PhotoIdsContainer` list-sync adapter (src/unnamed/part_002);
- the `postPhotoAction` server action
  (src/applications/sns-web/src/app/_components/PhotoCreateForm/actions.ts);
- the `POST /api/photos` route handler and the fetch-based `PhotoDeleteForm`
  client form (src/applications/sns-web/src/app/api/photos/route.ts);
- the server-action `PhotoDeleteForm` client form
  (src/applications/sns-web/src/app/(site)/_components/PhotoDeleteForm/index.tsx);
- the `POST /api/photos/[photoId]/like` route handler
  (src/training/my-app/src/app/api/photos/[photoId]/like/route.ts).

The navigation resolver (`PhotoViewNavigator`) is present in the repository only
through its callers and provider; its resolve algorithm is modelled from the
spec, as marked on the definitions below.
-/

/- ### Navigation resolver -/

/-- Direction of keyboard-driven overlay navigation: next (ArrowRight) or
previous (ArrowLeft). -/
inductive NavDirection
  | next
  | prev
  deriving DecidableEq, Repr

/-- Modelled from the spec: the linear scan of §4.3 locating `currentId` in the
registry sequence. Returns the index of the first occurrence, or `none` when
the identifier is absent. The `PhotoViewNavigator` implementation itself is not
among the provided source files (only its callers and its provider are). -/
def scanIndex (reg : List String) (currentId : String) : Option Nat :=
  match reg with
  | [] => none
  | x :: xs =>
    if x = currentId then some 0
    else (scanIndex xs currentId).map (· + 1)

/-- Modelled from the spec: `resolve(currentId, direction)` of §4.3. Reads the
registry's current sequence, locates `currentId` by linear scan, computes
`index ± 1`, and returns the identifier at that position, or `none` (NotFound)
when the position falls outside `[0, length)` or `currentId` is absent. No
wraparound. -/
def resolveNav (reg : List String) (currentId : String) (dir : NavDirection) :
    Option String :=
  match scanIndex reg currentId with
  | none => none
  | some i =>
    match dir with
    | NavDirection.next => reg[i + 1]?
    | NavDirection.prev => if i = 0 then none else reg[i - 1]?

/- ### Identifier registry and list-sync adapter (PhotoIdsContainer) -/

/-- Contents of the shared identifier registry (the `PhotoIdsContext` ref cell):
the ordered sequence of photo ids currently published by the mounted list
surface. -/
abbrev Registry := List String

/-- Effect body of `PhotoIdsContainer` (src/unnamed/part_002):
`photoIdsRef.current = photoIds` — overwrite the registry wholesale with the
currently rendered sequence, ignoring the previous contents. -/
def photoIdsEffect (photoIds : List String) (_reg : Registry) : Registry :=
  photoIds

/-- Effect cleanup of `PhotoIdsContainer` (src/unnamed/part_002):
`photoIdsRef.current = []` — reset the registry to the empty sequence,
ignoring the previous contents. -/
def photoIdsCleanup (_reg : Registry) : Registry :=
  []

/-- Lifecycle events of the `PhotoIdsContainer` component: initial mount with a
sequence, a re-render with (possibly) new ids, and unmount. -/
inductive ContainerEvent
  | mount (photoIds : List String)
  | update (photoIds : List String)
  | unmount
  deriving DecidableEq, Repr

/-- React semantics of the effect in `PhotoIdsContainer` whose dependency array
is `[photoIdsRef, photoIds]`: on mount the effect body runs; on an update the
previous cleanup runs and then the effect body re-runs; on unmount the cleanup
runs. -/
def containerStep (reg : Registry) : ContainerEvent → Registry
  | ContainerEvent.mount ids => photoIdsEffect ids reg
  | ContainerEvent.update ids => photoIdsEffect ids (photoIdsCleanup reg)
  | ContainerEvent.unmount => photoIdsCleanup reg

/-- Registry contents after a sequence of `PhotoIdsContainer` lifecycle
events. -/
def containerRun (reg : Registry) (es : List ContainerEvent) : Registry :=
  es.foldl containerStep reg

/- ### Timing of the registry write relative to the render commit -/

/-- Phases of one React render cycle, in execution order: render, commit of the
mutations to the DOM, browser paint, then the flush of passive effects
(`useEffect` callbacks). -/
inductive RenderPhase
  | renderPhase
  | commitPhase
  | paintPhase
  | passiveEffectPhase
  deriving DecidableEq, Repr

/-- Phase in which `PhotoIdsContainer` performs its registry write: the write
sits inside a `useEffect` callback (src/unnamed/part_002), which React runs as
a deferred passive effect after the commit has been painted. -/
def photoIdsWritePhase : RenderPhase :=
  RenderPhase.passiveEffectPhase

/-- Modelled from the spec: the phase in which the spec says the registry write
happens — "synchronously during render commit, not deferred". Stated as a
separate definition so it can be compared with `photoIdsWritePhase`, the phase
the source actually uses. -/
def specWritePhase : RenderPhase :=
  RenderPhase.commitPhase

/-- State of one client session for the purposes of registry visibility: the
registry cell itself plus the sequence of a committed render whose passive
effect has not yet flushed. -/
structure NavSession where
  registry : Registry
  pending : Option (List String)
  deriving DecidableEq, Repr

/-- Flush of pending passive effects: if a committed render's effect is still
pending, run the `PhotoIdsContainer` effect body now. React flushes pending
passive effects before delivering the next discrete user event. -/
def flushEffects (s : NavSession) : NavSession :=
  match s.pending with
  | none => s
  | some ids => { registry := photoIdsEffect ids s.registry, pending := none }

/-- Top-level session events: a list surface commits a render carrying `ids`
(the registry write is scheduled as a passive effect, not performed during the
commit), or the user triggers a next/prev resolution from the overlay. -/
inductive SessionEvent
  | renderList (ids : List String)
  | userResolve (id : String) (dir : NavDirection)
  deriving DecidableEq, Repr

/-- Session step. A `renderList` commit only schedules the registry write; a
`userResolve` is a discrete user event, so pending passive effects flush first
and the resolver then reads the registry. The second component is the
resolver's answer when the event was a user resolution. -/
def sessionStep (s : NavSession) : SessionEvent → NavSession × Option (Option String)
  | SessionEvent.renderList ids => ({ s with pending := some ids }, none)
  | SessionEvent.userResolve id dir =>
    let s' := flushEffects s
    (s', some (resolveNav s'.registry id dir))

/- ### Create mutation: postPhotoAction and POST /api/photos -/

/-- Created photo entity as far as the embedded code observes it: the
persistence boundary returns it and the action reads its `id`. -/
structure Photo where
  id : String
  deriving DecidableEq, Repr

/-- Authenticated session as far as the embedded code observes it:
`session.user.id`, the acting identity. -/
structure Session where
  userId : String
  deriving DecidableEq, Repr

/-- Payload of the create mutation (the `Payload` type of actions.ts and the
parsed request body of the route handler). -/
structure PostPayload where
  imageUrl : String
  title : String
  categoryId : String
  description : String
  deriving DecidableEq, Repr

/-- Cache tag computed for a create mutation by both actions.ts and route.ts:
the template literal `photos?authorId=` followed by `session.user.id`. -/
def authorTag (userId : String) : String :=
  "photos?authorId=" ++ userId

/-- Observable side effects of the create mutation, in issue order: the call
into the persistence boundary (`postPhotos`), a cache-tag invalidation
(`revalidateTag`), and a server-side redirect. -/
inductive PostEvent
  | persistCall (userId : String) (payload : PostPayload)
  | revalidate (tag : String)
  | redirectTo (path : String)
  deriving DecidableEq, Repr

/-- Result of `postPhotoAction` as seen by its caller: a typed failure message
object, or a redirect to the created photo's detail page. -/
inductive ActionResult
  | failureMessage (msg : String)
  | redirected (path : String)
  deriving DecidableEq, Repr

/-- Shallow embedding of `postPhotoAction`
(PhotoCreateForm/actions.ts). `persist` stands for the external `postPhotos`
boundary, an oracle the action awaits: it either returns the created photo or
throws. Control flow of the source: missing session returns
`{ message: "Unauthorized" }` before anything else runs; inside the `try`,
`postPhotos` is awaited, then `revalidateTag` fires, then `photoId` is saved;
any throw is caught and returns `{ message: "Internal Server Error" }`; the
redirect to the photo's detail page runs after the `try` block. The returned
list is the ordered trace of side effects issued. -/
def postPhotoAction (persist : String → PostPayload → Except Unit Photo)
    (session : Option Session) (payload : PostPayload) :
    List PostEvent × ActionResult :=
  match session with
  | none => ([], ActionResult.failureMessage "Unauthorized")
  | some s =>
    match persist s.userId payload with
    | Except.error _ =>
      ([PostEvent.persistCall s.userId payload],
       ActionResult.failureMessage "Internal Server Error")
    | Except.ok photo =>
      ([PostEvent.persistCall s.userId payload,
        PostEvent.revalidate (authorTag s.userId),
        PostEvent.redirectTo ("/photos/" ++ photo.id)],
       ActionResult.redirected ("/photos/" ++ photo.id))

/-- Body of the HTTP response produced by the `POST /api/photos` route
handler: either the created photo (201) or a message object (401/500). -/
inductive RouteBody
  | photoCreated (photo : Photo)
  | failureMessage (msg : String)
  deriving DecidableEq, Repr

/-- HTTP response of the route handler: status code plus JSON body. -/
structure RouteResponse where
  status : Nat
  body : RouteBody
  deriving DecidableEq, Repr

/-- Shallow embedding of the `POST` handler of
src/applications/sns-web/src/app/api/photos/route.ts. `parsedBody` stands for
the awaited `req.json()` (which can throw inside the `try`), `persist` for the
external `postPhotos` boundary. Source control flow: missing session returns
401 before the `try`; inside the `try`, the body is parsed, `postPhotos` is
awaited, `revalidateTag` fires, and 201 with the photo is returned; any throw
is caught and 500 with "Internal Server Error" is returned. -/
def postPhotosRoutePOST (persist : String → PostPayload → Except Unit Photo)
    (session : Option Session) (parsedBody : Except Unit PostPayload) :
    List PostEvent × RouteResponse :=
  match session with
  | none => ([], ⟨401, RouteBody.failureMessage "Unauthorized"⟩)
  | some s =>
    match parsedBody with
    | Except.error _ =>
      ([], ⟨500, RouteBody.failureMessage "Internal Server Error"⟩)
    | Except.ok body =>
      match persist s.userId body with
      | Except.error _ =>
        ([PostEvent.persistCall s.userId body],
         ⟨500, RouteBody.failureMessage "Internal Server Error"⟩)
      | Except.ok photo =>
        ([PostEvent.persistCall s.userId body,
          PostEvent.revalidate (authorTag s.userId)],
         ⟨201, RouteBody.photoCreated photo⟩)

/- ### Delete mutation form (PhotoDeleteForm) -/

/-- Client state of `PhotoDeleteForm`: the `error` and `isSubmitting` React
state cells. -/
structure DeleteFormState where
  error : Option String
  isSubmitting : Bool
  deriving DecidableEq, Repr

/-- Observable effects issued by `handleAction`: the DELETE fetch to the
persistence boundary, `router.refresh()`, `router.push(path)`, and the
`closeModal()` callback. -/
inductive DeleteEvent
  | fetchDelete (id : String)
  | refresh
  | pushRoute (path : String)
  | closeModal
  deriving DecidableEq, Repr

/-- Error message thrown (and then caught and displayed) by `handleAction`
when the DELETE response is not ok. -/
def deleteFailureMessage : String :=
  "削除に失敗しました"

/-- Synchronous prefix of `handleAction` (the part before the `await`):
`event.preventDefault()`, then `if (isSubmitting) return;`, then
`setIsSubmitting(true)` and the DELETE fetch is issued. Returns the state
after the synchronous prefix together with the effects issued by it; a
re-entrant submit while `isSubmitting` is set returns with no effects, so no
second fetch reaches the persistence boundary. -/
def handleActionStart (id : String) (s : DeleteFormState) :
    DeleteFormState × List DeleteEvent :=
  if s.isSubmitting then (s, [])
  else ({ s with isSubmitting := true }, [DeleteEvent.fetchDelete id])

/-- Continuation of `handleAction` once the in-flight DELETE completes, with
`ok` the value of `res.ok`. Source control flow: on ok, `router.refresh()`,
`router.push("/profile")`, the `finally` resets `isSubmitting`, and
`closeModal()` runs after the `try`/`finally`; on not-ok the thrown `Error` is
caught, `setError` records its message, the `catch` returns early (so
`closeModal` is never reached), and the `finally` still resets
`isSubmitting`. -/
def handleActionFinish (ok : Bool) (s : DeleteFormState) :
    DeleteFormState × List DeleteEvent :=
  if ok then
    ({ s with isSubmitting := false },
     [DeleteEvent.refresh, DeleteEvent.pushRoute "/profile",
      DeleteEvent.closeModal])
  else
    ({ s with error := some deleteFailureMessage, isSubmitting := false }, [])

/-- Default dialog message of `AlertDialogModalComponent`: the "deleting"
notice while submitting, otherwise the confirmation question. -/
def confirmDialogMessage (isSubmitting : Bool) : String :=
  if isSubmitting then "...削除しています"
  else "この写真を削除します\n本当によろしいですか？"

/-- Message displayed by the confirmation dialog: `error || message` in the
source, so a non-empty error string takes precedence over the default
message. -/
def dialogMessage (error : Option String) (isSubmitting : Bool) : String :=
  match error with
  | some e => if e = "" then confirmDialogMessage isSubmitting else e
  | none => confirmDialogMessage isSubmitting

/- ### Delete mutation form, server-action variant ((site)/_components/PhotoDeleteForm) -/

/-- Error value returned — not thrown — by the external `deletePhotoAction`
server action when the delete fails, as its caller observes it: an object
carrying a `message`. -/
structure ActionErr where
  message : String
  deriving DecidableEq, Repr

/-- Client state of the server-action variant of `PhotoDeleteForm`
((site)/_components/PhotoDeleteForm/index.tsx): the single `error` React state
cell (the submitting flag of this variant lives in `useFormStatus`'s
`pending`, not in component state). -/
structure SiteDeleteFormState where
  error : Option String
  deriving DecidableEq, Repr

/-- Shallow embedding of `handleAction` in the server-action variant of
`PhotoDeleteForm` ((site)/_components/PhotoDeleteForm/index.tsx). The external
`deletePhotoAction` is awaited and communicates failure as a returned value
(`err`), modelled by the `actionResult` oracle; the source then runs
`if (err) { setError(err.message); return; }` — recording the message and
returning early, so `closeModal()` is never reached — and calls `closeModal()`
only when no error was returned. This variant issues no `router.refresh` or
`router.push`; the returned list is the trace of effects issued. -/
def siteHandleAction (actionResult : Option ActionErr) (s : SiteDeleteFormState) :
    SiteDeleteFormState × List DeleteEvent :=
  match actionResult with
  | some err => ({ s with error := some err.message }, [])
  | none => (s, [DeleteEvent.closeModal])

/- ### Like route handler (training/my-app) -/

/-- Persisted like state: the set of (userId, photoId) pairs currently liked,
as the table the route's own TODO comments describe would hold it. -/
structure LikeDB where
  likes : List (String × String)
  deriving DecidableEq, Repr

/-- JSON body returned by the like route handler. -/
structure LikeResponse where
  liked : Bool
  deriving DecidableEq, Repr

namespace LikeRoute

/-- Shallow embedding of the `POST` handler of
src/training/my-app/src/app/api/photos/[photoId]/like/route.ts. The source
receives the request as `_` (unused), logs the photo id, leaves the sender
identification and the persistence as TODO comments, and returns
`Response.json` with `liked: true` unconditionally. The embedding therefore
ignores the identity and the photo id, returns the like table unchanged, and
always answers `liked = true`. -/
def POST (db : LikeDB) (_identity : Option String) (_photoId : String) :
    LikeDB × LikeResponse :=
  (db, { liked := true })

end LikeRoute

/- ### Helper lemmas -/

/-- Linear scan misses: an identifier not in the sequence has no scan index. -/
theorem scanIndex_eq_none_of_not_mem (S : List String) (id : String)
    (h : id ∉ S) : scanIndex S id = none := by
  induction S with
  | nil => rfl
  | cons x xs ih =>
    simp only [List.mem_cons, not_or] at h
    rw [scanIndex, if_neg (fun hx => h.1 hx.symm), ih h.2]
    rfl

/-- The scan index is an occurrence: the sequence holds the identifier at the
index the linear scan returns. -/
theorem scanIndex_getElem (S : List String) (id : String) (i : Nat)
    (h : scanIndex S id = some i) : S[i]? = some id := by
  induction S generalizing i with
  | nil => simp [scanIndex] at h
  | cons x xs ih =>
    rw [scanIndex] at h
    by_cases hx : x = id
    · rw [if_pos hx] at h
      obtain rfl : (0 : Nat) = i := Option.some.inj h
      simp [hx]
    · rw [if_neg hx] at h
      obtain ⟨j, hj, hji⟩ := Option.map_eq_some'.mp h
      subst hji
      simpa using ih j hj

/- ### Claim theorems -/

/-- C1 (amended): for every identifier occurring in the sequence, with `i` the
index of its first occurrence (the index the linear scan locates),
`resolve(id, Next)` returns `S[i+1]` when `i+1 < |S|` and NotFound otherwise
(both captured by `S[i+1]?`), and `resolve(id, Prev)` returns `S[i-1]` when
`i ≥ 1` and NotFound when `i = 0`, with no wraparound; and for every identifier
not present in the sequence, including when the sequence is empty, both
directions resolve to NotFound rather than throwing (the resolver is a total
function). -/
theorem c1_resolve_first_occurrence :
    (∀ (S : List String) (id : String) (i : Nat),
        scanIndex S id = some i →
        S[i]? = some id ∧
        resolveNav S id NavDirection.next = S[i + 1]? ∧
        resolveNav S id NavDirection.prev =
          (if i = 0 then none else S[i - 1]?)) ∧
    (∀ (S : List String) (id : String) (dir : NavDirection),
        id ∉ S → resolveNav S id dir = none) := by
  constructor
  · intro S id i h
    refine ⟨scanIndex_getElem S id i h, ?_, ?_⟩ <;> simp [resolveNav, h]
  · intro S id dir h
    cases dir <;> simp [resolveNav, scanIndex_eq_none_of_not_mem S id h]

/-- Witness for C1: on the sequence `["a", "b", "c"]`, the identifier `"b"`
first occurs at index 1, Next resolves to `"c"`, Prev resolves to `"a"`, and
the absent identifier `"x"` resolves to NotFound. -/
theorem c1_resolve_first_occurrence_witness :
    (["a", "b", "c"] : List String)[1]? = some "b" ∧
    resolveNav ["a", "b", "c"] "b" NavDirection.next = some "c" ∧
    resolveNav ["a", "b", "c"] "b" NavDirection.prev = some "a" ∧
    resolveNav ["a", "b", "c"] "x" NavDirection.next = none := by
  have h := c1_resolve_first_occurrence.1 ["a", "b", "c"] "b" 1 (by decide)
  have h2 := c1_resolve_first_occurrence.2 ["a", "b", "c"] "x"
    NavDirection.next (by decide)
  refine ⟨h.1, by simpa using h.2.1, by simpa using h.2.2, h2⟩

/-- Counterexample to C1 as stated: in the sequence `["a", "b", "a"]`
(duplicates are allowed — the spec's data model requires no uniqueness), the
identifier `"a"` occurs at index 2, and `2 + 1` is not `< 3`, so the claim
demands NotFound for Next; but the linear-scan resolver locates the first
occurrence (index 0) and returns `S[1] = "b"`. -/
theorem c1_duplicate_counterexample :
    (["a", "b", "a"] : List String)[2]? = some "a" ∧
    ¬ (2 + 1 < (["a", "b", "a"] : List String).length) ∧
    resolveNav ["a", "b", "a"] "a" NavDirection.next = some "b" := by
  refine ⟨by decide, by decide, by decide⟩

/-- C2: for every create-mutation execution with an acting identity present,
the cache-tag invalidation is issued only after the persistence write has
completed successfully — on persistence failure the side-effect trace of both
`postPhotoAction` and the `POST /api/photos` handler is exactly the persistence
call (no `revalidate`, no `redirectTo`), and the returned value carries the
typed failure message "Internal Server Error"; on persistence success the
trace places the `revalidate` strictly after the `persistCall`. -/
theorem c2_invalidate_only_after_successful_persist :
    ∀ (persist : String → PostPayload → Except Unit Photo) (s : Session)
      (payload : PostPayload),
      (∀ e, persist s.userId payload = Except.error e →
        postPhotoAction persist (some s) payload =
          ([PostEvent.persistCall s.userId payload],
           ActionResult.failureMessage "Internal Server Error") ∧
        postPhotosRoutePOST persist (some s) (Except.ok payload) =
          ([PostEvent.persistCall s.userId payload],
           ⟨500, RouteBody.failureMessage "Internal Server Error"⟩)) ∧
      (∀ photo, persist s.userId payload = Except.ok photo →
        postPhotoAction persist (some s) payload =
          ([PostEvent.persistCall s.userId payload,
            PostEvent.revalidate (authorTag s.userId),
            PostEvent.redirectTo ("/photos/" ++ photo.id)],
           ActionResult.redirected ("/photos/" ++ photo.id)) ∧
        postPhotosRoutePOST persist (some s) (Except.ok payload) =
          ([PostEvent.persistCall s.userId payload,
            PostEvent.revalidate (authorTag s.userId)],
           ⟨201, RouteBody.photoCreated photo⟩)) := by
  intro persist s payload
  constructor
  · intro e he
    constructor <;> simp [postPhotoAction, postPhotosRoutePOST, he]
  · intro photo hp
    constructor <;> simp [postPhotoAction, postPhotosRoutePOST, hp]

/-- Witness for C2: with a persistence boundary that always fails and the
identity `"u"`, the action's trace is exactly the persistence call and the
result is the "Internal Server Error" failure. -/
theorem c2_invalidate_only_after_successful_persist_witness :
    postPhotoAction (fun _ _ => Except.error ()) (some ⟨"u"⟩)
        ⟨"img", "title", "cat", "desc"⟩ =
      ([PostEvent.persistCall "u" ⟨"img", "title", "cat", "desc"⟩],
       ActionResult.failureMessage "Internal Server Error") :=
  ((c2_invalidate_only_after_successful_persist (fun _ _ => Except.error ())
      ⟨"u"⟩ ⟨"img", "title", "cat", "desc"⟩).1 () rfl).1

/-- C3: a successful create by owner `O` invalidates exactly the tag
`photos?authorId=O` — the list of tags carried by `revalidate` events in the
trace of both `postPhotoAction` and the `POST /api/photos` handler is exactly
`[authorTag O]` — and the tag computed for a different owner is never equal,
since `authorTag` is injective. -/
theorem c3_invalidation_scoped_to_owner :
    (∀ (persist : String → PostPayload → Except Unit Photo) (s : Session)
        (payload : PostPayload) (photo : Photo),
        persist s.userId payload = Except.ok photo →
        ((postPhotoAction persist (some s) payload).1.filterMap
            fun ev => match ev with
              | PostEvent.revalidate t => some t
              | _ => none) = [authorTag s.userId] ∧
        ((postPhotosRoutePOST persist (some s) (Except.ok payload)).1.filterMap
            fun ev => match ev with
              | PostEvent.revalidate t => some t
              | _ => none) = [authorTag s.userId]) ∧
    (∀ o o2 : String, o ≠ o2 → authorTag o ≠ authorTag o2) := by
  constructor
  · intro persist s payload photo hp
    constructor <;> simp [postPhotoAction, postPhotosRoutePOST, hp]
  · intro o o2 hne h
    apply hne
    have hd := congrArg String.data h
    rw [authorTag, authorTag, String.data_append, String.data_append] at hd
    exact String.ext (List.append_cancel_left hd)

/-- Witness for C3: with a persistence boundary that succeeds with photo
`"x1"` and the identity `"u"`, the action's trace invalidates exactly
`photos?authorId=u`; and the tags for owners `"a"` and `"b"` differ. -/
theorem c3_invalidation_scoped_to_owner_witness :
    ((postPhotoAction (fun _ _ => Except.ok ⟨"x1"⟩) (some ⟨"u"⟩)
        ⟨"img", "title", "cat", "desc"⟩).1.filterMap
        fun ev => match ev with
          | PostEvent.revalidate t => some t
          | _ => none) = [authorTag "u"] ∧
    authorTag "a" ≠ authorTag "b" :=
  ⟨(c3_invalidation_scoped_to_owner.1 (fun _ _ => Except.ok ⟨"x1"⟩) ⟨"u"⟩
      ⟨"img", "title", "cat", "desc"⟩ ⟨"x1"⟩ rfl).1,
   c3_invalidation_scoped_to_owner.2 "a" "b" (by decide)⟩

/-- C4: after `PhotoIdsContainer` tears down, the shared identifier registry
reads as the empty sequence regardless of whatever it held before — any
lifecycle history followed by an unmount leaves the registry empty, and the
cleanup itself always produces the empty sequence from any prior contents
(including just before a re-run of the effect, where `containerStep` applies
the cleanup first). -/
theorem c4_teardown_clears_registry :
    (∀ (reg : Registry) (es : List ContainerEvent),
        containerRun reg (es ++ [ContainerEvent.unmount]) = []) ∧
    (∀ reg : Registry, photoIdsCleanup reg = []) := by
  constructor
  · intro reg es
    simp [containerRun, List.foldl_append, containerStep, photoIdsCleanup]
  · intro reg
    rfl

/-- Counterexample to C5 as stated: starting from a session whose registry
holds `["a"]`, committing a render of the list with ids `["b"]` leaves the
registry still at `["a"]` — the write is not performed synchronously relative
to the render commit but deferred to a passive effect, because the source
places it in a `useEffect` callback (`photoIdsWritePhase` is the
passive-effect phase, not the commit phase the spec describes). -/
theorem c5_commit_synchrony_counterexample :
    ((sessionStep ⟨["a"], none⟩ (SessionEvent.renderList ["b"])).1).registry
      = ["a"] ∧
    (["a"] : List String) ≠ ["b"] ∧
    photoIdsWritePhase ≠ specWritePhase := by
  refine ⟨rfl, by decide, by decide⟩

/-- C5 (amended): the registry write of `PhotoIdsContainer` is deferred — it
runs in a passive effect (`useEffect`) after the render commit, not
synchronously during it — but React flushes pending passive effects before
delivering the next discrete user event, so every NavigationResolver read
issued by a user interaction after the list renders still observes the
just-rendered sequence. -/
theorem c5_deferred_write_flushed_before_user_read :
    (∀ (s : NavSession) (ids : List String) (id : String) (dir : NavDirection),
        (sessionStep (sessionStep s (SessionEvent.renderList ids)).1
            (SessionEvent.userResolve id dir)).2 =
          some (resolveNav ids id dir)) ∧
    photoIdsWritePhase = RenderPhase.passiveEffectPhase := by
  constructor
  · intro s ids id dir
    simp [sessionStep, flushEffects, photoIdsEffect]
  · rfl

/-- C6: a create-mutation call without an authenticated acting identity
returns the typed failure Unauthorized (the message object in the action, the
401 response in the route handler), and its side-effect trace is empty — no
persistence call reaches the boundary and no cache tag is invalidated. -/
theorem c6_unauthenticated_create_rejected :
    ∀ (persist : String → PostPayload → Except Unit Photo)
      (payload : PostPayload) (parsedBody : Except Unit PostPayload),
      postPhotoAction persist none payload =
        ([], ActionResult.failureMessage "Unauthorized") ∧
      postPhotosRoutePOST persist none parsedBody =
        ([], ⟨401, RouteBody.failureMessage "Unauthorized"⟩) := by
  intro persist payload parsedBody
  exact ⟨rfl, rfl⟩

/-- C7 (code evaluation at the failing input): two successive calls of the
like route handler for the same identity `"u1"` and photo `"p1"`, starting
from an empty like table, both return `liked = true` and leave the like table
empty — zero persisted like-state changes rather than the exactly one the
claim requires, and no `ValidationFailed` outcome is ever produced, because
the handler's sender identification and persistence are unimplemented TODO
stubs. -/
theorem c7_like_route_persists_nothing :
    LikeRoute.POST ⟨[]⟩ (some "u1") "p1" = (⟨[]⟩, ⟨true⟩) ∧
    LikeRoute.POST (LikeRoute.POST ⟨[]⟩ (some "u1") "p1").1 (some "u1") "p1" =
      (⟨[]⟩, ⟨true⟩) :=
  ⟨rfl, rfl⟩

/-- C8: while a delete mutation is in flight (`isSubmitting` set), a second
submit of the same form is ignored before reaching the persistence boundary —
`handleActionStart` on a submitting state issues no effects (in particular no
`fetchDelete`) and leaves the state unchanged, so the flag stays set; a first
submit from a non-submitting state sets the flag and issues exactly one
`fetchDelete`; a second submit issued while that request is in flight issues
nothing; and the flag is reset (only) by `handleActionFinish`, which models
the `finally` block running when the in-flight request completes. -/
theorem c8_double_submit_ignored :
    ∀ (id : String) (e : Option String),
      handleActionStart id ⟨e, true⟩ = (⟨e, true⟩, []) ∧
      handleActionStart id ⟨e, false⟩ =
        (⟨e, true⟩, [DeleteEvent.fetchDelete id]) ∧
      handleActionStart id (handleActionStart id ⟨e, false⟩).1 =
        ((handleActionStart id ⟨e, false⟩).1, []) ∧
      (∀ ok,
        ((handleActionFinish ok (handleActionStart id ⟨e, false⟩).1).1).isSubmitting
          = false) := by
  intro id e
  refine ⟨rfl, rfl, rfl, ?_⟩
  intro ok
  cases ok <;> rfl

/-- C9: when `deletePhotoAction` returns a typed failure `err` to the
server-action `PhotoDeleteForm`, `handleAction` records `err.message` in the
`error` cell — the rest of the form state is unchanged, allowing retry — and
issues no effects at all, in particular no `closeModal`, so the confirmation
dialog stays open; the dialog then displays that message, since its
`messageNode` is `error || message` (captured by `dialogMessage`, a line the
two form variants share verbatim, here with `pending = false` once the action
has returned). The `closeModal` effect is issued exactly on the success path
(`actionResult = none`), and the failure reaches the form as a returned value,
not a throw: `siteHandleAction` is a total function of the action's result. -/
theorem c9_failure_keeps_modal_open :
    (∀ (s : SiteDeleteFormState) (err : ActionErr),
        siteHandleAction (some err) s =
          ({ s with error := some err.message }, []) ∧
        (err.message ≠ "" →
          dialogMessage (some err.message) false = err.message)) ∧
    (∀ s : SiteDeleteFormState,
        siteHandleAction none s = (s, [DeleteEvent.closeModal])) := by
  constructor
  · intro s err
    refine ⟨rfl, fun h => ?_⟩
    simp [dialogMessage, h]
  · intro s
    rfl

/-- Witness for C9: a failed delete returning the message "Internal Server
Error" records it in the form state, issues no effects, and the dialog shows
it; a successful delete issues exactly the `closeModal` effect. -/
theorem c9_failure_keeps_modal_open_witness :
    siteHandleAction (some ⟨"Internal Server Error"⟩) ⟨none⟩ =
      (⟨some "Internal Server Error"⟩, []) ∧
    dialogMessage (some "Internal Server Error") false =
      "Internal Server Error" ∧
    siteHandleAction none ⟨none⟩ = (⟨none⟩, [DeleteEvent.closeModal]) := by
  have h := c9_failure_keeps_modal_open.1 ⟨none⟩ ⟨"Internal Server Error"⟩
  exact ⟨h.1, h.2 (by decide), c9_failure_keeps_modal_open.2 ⟨none⟩⟩

/-- C10: the like route handler returns the same `liked = true` response for
every request — independent of the requester's identity, of whether any
identity is present at all, and of the photo id — and never changes the
persisted like table, so any two runs, with different identities or different
photo ids, produce identical responses and leave the state untouched. -/
theorem c10_like_route_uniform_response :
    (∀ (db : LikeDB) (ident : Option String) (photoId : String),
        LikeRoute.POST db ident photoId = (db, ⟨true⟩)) ∧
    (∀ (db : LikeDB) (i1 i2 : Option String) (p1 p2 : String),
        (LikeRoute.POST db i1 p1).2 = (LikeRoute.POST db i2 p2).2) := by
  exact ⟨fun _ _ _ => rfl, fun _ _ _ _ _ => rfl⟩
